import Mathlib

/-!
Shallow embedding of the query-sage-portal-backend browser-agent service.

The embedding covers the session lifecycle and query-orchestration core:

* `src/app/browser_controller.py`: the `BrowserController` class with
  `start_session`, `process_query`, `stream_browser` and `stop_session`.
* `src/app/main.py`: the session table (`browser_sessions`) and the HTTP
  endpoints `start_browser`, `process_query`, `stop_browser`.

External collaborators (the Browserbase provider, the browser-use agent and
the LLM summarizer) are modelled as explicit environments: a record of the
outcomes those external calls would produce during one operation.  Python
attributes that may be absent (`hasattr`/`getattr` probing) are modelled as
`Option` fields, with `none` standing for an absent (or `None`/falsy)
attribute.
-/

namespace QuerySage

/-- One element of the agent's action trace (browser-use `ActionResult`).
`is_done` models `getattr(action, 'is_done', False)` (absent defaults are the
same as `False`, so a plain `Bool` suffices); `success` is kept optional
because the two extraction paths in `process_query` use different defaults
for a missing `success` attribute; `extracted_content` models
the action's extracted text. -/
structure ActionResult where
  is_done : Bool
  success : Option Bool
  extracted_content : String
deriving DecidableEq

/-- The agent's return value (browser-use `AgentHistoryList`) as probed by
`process_query`: `all_results := none` models an object without the
`all_results` attribute. -/
structure AgentHistoryList where
  all_results : Option (List ActionResult)
deriving DecidableEq

/-- Direct-extraction fallback taken when the synchronous summarizer `invoke`
raises (`browser_controller.py` lines 224-233):

    if hasattr(result, 'all_results') and result.all_results:
        for action in reversed(result.all_results):
            if getattr(action, 'is_done', False) and getattr(action, 'success', True):
                final_text_result = getattr(action, 'extracted_content', '')
                break
        else:
            final_text_result = getattr(result.all_results[-1], 'extracted_content', '')
    else:
        final_text_result = "I found information related to your query but had trouble formatting the results."

Note the `True` default for a missing `success` attribute, and that an empty
`all_results` list is falsy in Python, hence takes the `else` branch. -/
def extract_after_sync_failure (result : AgentHistoryList) : String :=
  match result.all_results with
  | some (a :: rest) =>
    match (a :: rest).reverse.find? (fun x => x.is_done && x.success.getD true) with
    | some x => x.extracted_content
    | none =>
      match (a :: rest).getLast? with
      | some y => y.extracted_content
      | none => ""
  | _ => "I found information related to your query but had trouble formatting the results."

/-- Direct-extraction fallback taken when the outer summarization block raises
(`browser_controller.py` lines 239-250):

    if hasattr(result, 'all_results'):
        done_actions = [action for action in result.all_results
                        if getattr(action, 'is_done', False) and getattr(action, 'success', False)]
        if done_actions:
            final_text_result = done_actions[-1].extracted_content
        else:
            final_text_result = result.all_results[-1].extracted_content if result.all_results else ""
    else:
        final_text_result = "Based on my web search, I found information related to your query about " + query

Note the `False` default for a missing `success` attribute, and that an empty
`all_results` list yields the empty string here. -/
def extract_after_summary_failure (result : AgentHistoryList) (query : String) : String :=
  match result.all_results with
  | some l =>
    match (l.filter (fun x => x.is_done && x.success.getD false)).getLast? with
    | some x => x.extracted_content
    | none =>
      match l.getLast? with
      | some y => y.extracted_content
      | none => ""
  | none => "Based on my web search, I found information related to your query about " ++ query

/-- The value the summarization block leaves in `final_text_result`: either an
actual string or a non-string Python value (e.g. an LLM response whose
`content` is not `str`), which the final sanitization check
`not isinstance(final_text_result, str)` catches. -/
inductive LlmValue where
  | nonString : LlmValue
  | str : String → LlmValue
deriving DecidableEq

/-- The fixed apologetic message used by the final sanitization step
(`browser_controller.py` line 272). -/
def apology_message (query : String) : String :=
  "I searched for information about " ++ query ++ ", but encountered an issue formatting the results."

/-- `str.startswith` modelled as a character-list prefix test. -/
def py_starts_with (s pre : String) : Bool :=
  pre.toList.isPrefixOf s.toList

/-- Final result sanitization (`browser_controller.py` lines 269-272):

    if not isinstance(final_text_result, str) or final_text_result.startswith('AgentHistoryList') or not final_text_result:
        final_text_result = f"I searched for information about {query}, but encountered an issue formatting the results."

A non-string value, a string starting with the provider's object tag, or an
empty (falsy) string is replaced by the apology message. -/
def sanitize_result (v : LlmValue) (query : String) : String :=
  match v with
  | .nonString => apology_message query
  | .str s => if py_starts_with s "AgentHistoryList" || s == "" then apology_message query else s

/-- History update performed after each query (`browser_controller.py`
lines 260-262):

    self.history.append(self.current_url)
    if len(self.history) > 10:
        self.history = self.history[-10:]

`xs[-10:]` keeps the last 10 elements, i.e. drops `length - 10` from the
front. -/
def append_history (history : List String) (url : String) : List String :=
  let h := history ++ [url]
  if h.length > 10 then h.drop (h.length - 10) else h

/-- Mutable state of one `BrowserController` (`browser_controller.py`
`__init__`, lines 22-41).  `connection_url` is not assigned in `__init__` at
all (it first appears in `start_session`); `none` models the absent
attribute.  `debug_links` holds the `debuggerFullscreenUrl` of the debug
links when present.  The unmodelled fields (`bb`, `project_id`, `session`,
`agent`, `current_task`, `dimensions`) are SDK handles or constants that no
claim observes. -/
structure BrowserController where
  user_id : String
  session_id : Option String
  current_url : Option String
  streaming : Bool
  history : List String
  debug_links : Option String
  steps : List String
  connection_url : Option String
deriving DecidableEq

/-- `BrowserController.__init__`: all session fields unset, empty history and
narration log. -/
def BrowserController.init (user_id : String) : BrowserController :=
  { user_id := user_id
    session_id := none
    current_url := none
    streaming := false
    history := []
    debug_links := none
    steps := []
    connection_url := none }

/-- A Browserbase session record as returned by `sessions.create` /
`sessions.retrieve` (only the fields the controller reads). -/
structure SessionRec where
  id : String
  connect_url : String
deriving DecidableEq

/-- Environment for one `start_session` call: the outcomes of the provider
calls it may perform.  `create_result` is the outcome of `sessions.create`
(`Except.error` carries the exception text); `list_result` is what
`sessions.list` would return; `retrieve` gives the full record
`sessions.retrieve(id)` for an id; `debug_url` gives
`sessions.debug(id).debuggerFullscreenUrl`.  The fallback calls are modelled
as succeeding; only `sessions.create` may fail. -/
structure StartEnv where
  create_result : Except String SessionRec
  list_result : List SessionRec
  retrieve : String → SessionRec
  debug_url : String → String

/-- Value returned by `start_session`: the connected-session dict or the
error dict (`browser_controller.py` lines 83-88, 113-118, 127-130). -/
inductive StartResult where
  | connected (session_id current_url live_view_url : String)
  | failed (error : String)
deriving DecidableEq

/-- The provider's concurrency-limit exception text tested with Python `in`
(`browser_controller.py` line 92). -/
def limit_message : String := "You\x27ve exceeded your max concurrent sessions limit"

/-- `"You've exceeded your max concurrent sessions limit" in error_message`,
modelled as a character-list infix test. -/
def message_mentions_limit (e : String) : Bool :=
  decide (limit_message.toList <:+: e.toList)

/-- `BrowserController.start_session` (`browser_controller.py` lines 43-130).
On a successful create, records the session id, debug link, initial URL,
connection URL and two narration entries.  If create fails with the
concurrency-limit message, lists existing sessions and adopts the first one,
re-fetching its record by id via `retrieve`; with no existing session (or
any other failure) the error dict is returned and the state is unchanged. -/
def BrowserController.start_session (c : BrowserController) (env : StartEnv) :
    BrowserController × StartResult :=
  match env.create_result with
  | .ok s =>
    ({ c with
        session_id := some s.id
        debug_links := some (env.debug_url s.id)
        current_url := some "https://www.google.com"
        connection_url := some s.connect_url
        steps := c.steps ++ ["Browser session initialized", "Starting with https://www.google.com"] },
      .connected s.id "https://www.google.com" (env.debug_url s.id))
  | .error e =>
    if message_mentions_limit e then
      match env.list_result with
      | first :: _ =>
        let s := env.retrieve first.id
        ({ c with
            session_id := some s.id
            debug_links := some (env.debug_url s.id)
            current_url := some "https://www.google.com"
            connection_url := some s.connect_url
            steps := c.steps ++ ["Browser session reused", "Starting with https://www.google.com"] },
          .connected s.id "https://www.google.com" (env.debug_url s.id))
      | [] => (c, .failed e)
    else (c, .failed e)

/-- `BrowserController.stop_session` (`browser_controller.py` lines 399-418).
When a session id is set it clears `session_id`, `session`, `agent` and
`streaming`; the `except` branch clears exactly the same fields, so a failing
provider delete makes no observable difference.  `connection_url`,
`current_url`, `history`, `steps` and `debug_links` are not touched. -/
def BrowserController.stop_session (c : BrowserController) : BrowserController :=
  if c.session_id.isSome then
    { c with session_id := none, streaming := false }
  else c

/-- Outcome of the summarization block inside `process_query`
(`browser_controller.py` lines 192-250): the synchronous `invoke` succeeds
with some content value, or the `invoke` raises (inner fallback, lines
224-233), or the outer summarization block raises (outer fallback, lines
239-250). -/
inductive SummaryOutcome where
  | invoke_ok (content : LlmValue)
  | sync_failure
  | summary_failure
deriving DecidableEq

/-- Environment for one `process_query` call.  `outer_failure` is the text of
an exception raised before the inner browser `try` (e.g. LLM client
construction, lines 147-150); `agent_run` is the outcome of browser
construction plus `agent.run()` (failure is modelled at the `run` step, which
takes the same `except` branch as a construction failure); `summary` is the
summarization outcome; `browser_url` is `browser.current_url` afterwards
(`none` models an absent or falsy attribute). -/
structure QueryEnv where
  outer_failure : Option String
  agent_run : Except String AgentHistoryList
  summary : SummaryOutcome
  browser_url : Option String

/-- The dict returned by `process_query`.  The error dict (lines 315-320)
carries no `current_url` key, so `current_url` is doubly optional: the outer
`none` models an absent key, `some u` a present key with value `u`
(itself possibly `None`). -/
structure QueryResponse where
  status : String
  aiResponse : String
  error : Option String
  current_url : Option (Option String)
  steps : List String
deriving DecidableEq

/-- `BrowserController.process_query` (`browser_controller.py` lines
132-320).  Appends the query narration entry, then:
* an exception before the inner `try` takes the outer handler (lines
  311-320): status `error`, no `current_url` key;
* a browser/agent failure takes the `browser_error` handler (lines 284-301):
  status `partial_success` with an apology naming the error (the inner `try`
  there wraps only string concatenation and cannot fail, so the nested
  handler at lines 302-309 is dead code);
* otherwise the summarization block produces a candidate value, the
  completion narration entry is appended, the current URL and history are
  updated when the browser reports a URL, the value is sanitized, and the
  success dict is returned. -/
def BrowserController.process_query (c : BrowserController) (env : QueryEnv)
    (query : String) : BrowserController × QueryResponse :=
  let c1 := { c with steps := c.steps ++ ["Processing query: " ++ query] }
  match env.outer_failure with
  | some msg =>
    let c2 := { c1 with steps := c1.steps ++ ["Error: " ++ msg] }
    (c2, { status := "error"
           aiResponse := "I encountered an error while processing your request: " ++ msg
           error := some msg
           current_url := none
           steps := c2.steps })
  | none =>
    let c2 := { c1 with steps := c1.steps ++ ["Browser agent initialized", "Executing query..."] }
    match env.agent_run with
    | .error msg =>
      let c3 := { c2 with steps := c2.steps ++ ["Browser error: " ++ msg] }
      (c3, { status := "partial_success"
             aiResponse := "I encountered an issue while trying to browse the web: " ++ msg
               ++ ". I\x27m unable to access web content for this query right now."
             error := none
             current_url := some c3.current_url
             steps := c3.steps })
    | .ok result =>
      let text0 : LlmValue :=
        match env.summary with
        | .invoke_ok v => v
        | .sync_failure => .str (extract_after_sync_failure result)
        | .summary_failure => .str (extract_after_summary_failure result query)
      let c3 := { c2 with steps := c2.steps ++ ["Query execution completed"] }
      let c4 :=
        match env.browser_url with
        | some u =>
          { c3 with
              current_url := some u
              history := append_history c3.history u
              steps := c3.steps ++ ["Navigated to " ++ u] }
        | none => c3
      (c4, { status := "success"
             aiResponse := sanitize_result text0 query
             error := none
             current_url := some c4.current_url
             steps := c4.steps })

/-- The `browser_sessions` table of `main.py`: an insertion-ordered map from
`user_id` to controller, as a key-unique association list. -/
abbrev SessionTable := List (String × BrowserController)

/-- `user_id in browser_sessions` / `browser_sessions[user_id]`. -/
def lookup_session : SessionTable → String → Option BrowserController
  | [], _ => none
  | (k, c) :: rest, uid => if k = uid then some c else lookup_session rest uid

/-- `browser_sessions[user_id] = controller`: update in place when the key
exists (dict assignment preserves position), append otherwise. -/
def set_session : SessionTable → String → BrowserController → SessionTable
  | [], uid, c => [(uid, c)]
  | (k, c0) :: rest, uid, c =>
    if k = uid then (k, c) :: rest else (k, c0) :: set_session rest uid c

/-- `del browser_sessions[user_id]` (keys are unique, one entry removed). -/
def remove_session : SessionTable → String → SessionTable
  | [], _ => []
  | (k, c) :: rest, uid => if k = uid then rest else (k, c) :: remove_session rest uid

/-- HTTP-level result of `POST /api/browser/start` (`main.py` lines 40-67):
either a JSON body (the early-return body has no `current_url` key, modelled
by `none`) or a raised `HTTPException`. -/
inductive StartHttp where
  | ok (message : String) (session_id : Option String) (current_url : Option String)
  | httpError (code : Nat) (detail : String)
deriving DecidableEq

/-- `start_browser` endpoint (`main.py` lines 40-67).  An existing entry
early-returns "Session already exists" with the stored controller's
`session_id` and the table untouched.  Otherwise a fresh controller is put in
the table, `start_session` runs (its in-place mutations are visible through
the table entry), and on an error result the entry is deleted and a 500 is
raised with the provider's error text. -/
def start_browser (t : SessionTable) (uid : String) (env : StartEnv) :
    SessionTable × StartHttp :=
  match lookup_session t uid with
  | some ctrl => (t, .ok "Session already exists" ctrl.session_id none)
  | none =>
    let ctrl := BrowserController.init uid
    let t1 := set_session t uid ctrl
    let res := ctrl.start_session env
    let t2 := set_session t1 uid res.1
    match res.2 with
    | .failed e => (remove_session t2 uid, .httpError 500 e)
    | .connected sid curl _ => (t2, .ok "Browser session started" (some sid) (some curl))

/-- HTTP-level result of `POST /api/browser/query` (`main.py` lines 69-90):
the JSON body `{response, current_url, steps}` or a raised `HTTPException`
(which carries only the detail text). -/
inductive QueryHttp where
  | ok (response : String) (current_url : Option String) (steps : List String)
  | httpError (code : Nat) (detail : String)
deriving DecidableEq

/-- The narration log carried by an HTTP query result, if any: a raised
`HTTPException` carries none. -/
def QueryHttp.steps_of : QueryHttp → Option (List String)
  | .ok _ _ s => some s
  | .httpError _ _ => none

/-- `process_query` endpoint (`main.py` lines 69-90).  404 when no session
exists; otherwise the controller runs the query (its mutations visible
through the table entry), a controller-level `error` status is re-raised as a
500 carrying only `result["error"]`, and any other status returns
`{response: aiResponse, current_url, steps}`. -/
def process_query (t : SessionTable) (uid : String) (query : String)
    (env : QueryEnv) : SessionTable × QueryHttp :=
  match lookup_session t uid with
  | none => (t, .httpError 404 "No active browser session found")
  | some ctrl =>
    let res := ctrl.process_query env query
    let t2 := set_session t uid res.1
    if res.2.status = "error" then
      (t2, .httpError 500 (res.2.error.getD ""))
    else
      (t2, .ok res.2.aiResponse (res.2.current_url.getD none) res.2.steps)

/-- One typed message pushed over the websocket by `stream_browser`
(`browser_controller.py` lines 334-391). -/
inductive StreamMsg where
  | status (session_id : Option String)
  | url (u : String)
  | steps (s : List String)
  | live_view_url (u : String)
deriving DecidableEq

/-- Observable session state at one tick of the streaming loop. -/
structure StreamSnapshot where
  debug_links : Option String
  current_url : Option String
  steps : List String
deriving DecidableEq

/-- The initial attach pushes of `stream_browser` (lines 338-358): status,
current URL (with `about:blank` default) and the full narration log; the
returned counter is `last_steps_count = len(self.steps)`. -/
def stream_attach (c : BrowserController) : List StreamMsg × Nat :=
  ([.status c.session_id,
    .url (c.current_url.getD "about:blank"),
    .steps c.steps],
   c.steps.length)

/-- One iteration of the streaming loop (lines 362-387): the live-view URL
when known, the current URL, and the narration log only when its length has
grown past `last_steps_count` (in which case the counter advances). -/
def stream_tick (snap : StreamSnapshot) (last_steps_count : Nat) :
    List StreamMsg × Nat :=
  ((match snap.debug_links with
    | some dl => [StreamMsg.live_view_url dl]
    | none => [])
   ++ [StreamMsg.url (snap.current_url.getD "about:blank")]
   ++ (if snap.steps.length > last_steps_count then [StreamMsg.steps snap.steps] else []),
   if snap.steps.length > last_steps_count then snap.steps.length else last_steps_count)

/-- A run of the streaming loop over a list of per-tick snapshots, threading
`last_steps_count` through; yields all pushed messages in order and the final
counter. -/
def stream_run : List StreamSnapshot → Nat → List StreamMsg × Nat
  | [], last => ([], last)
  | s :: rest, last =>
    ((stream_tick s last).1 ++ (stream_run rest (stream_tick s last).2).1,
     (stream_run rest (stream_tick s last).2).2)

/-- Number of narration-log (`steps`) messages in a pushed-message list. -/
def count_steps_msgs (ms : List StreamMsg) : Nat :=
  (ms.filter fun m => match m with | .steps _ => true | _ => false).length

/-! ## Helper lemmas -/

/-- A string append whose left part is nonempty is nonempty. -/
lemma append_ne_empty_of_left (a b : String) (ha : a.data ≠ []) : a ++ b ≠ "" := by
  intro he
  have hd := congrArg String.data he
  simp only [String.data_append] at hd
  exact ha (List.append_eq_nil.mp hd).1

/-- The sanitization apology is never the empty string. -/
lemma apology_message_ne_empty (q : String) : apology_message q ≠ "" := by
  simpa [apology_message, String.append_assoc] using
    append_ne_empty_of_left "I searched for information about " (q ++ ", but encountered an issue formatting the results.") (by decide)

/-- Sanitization always yields a nonempty string. -/
lemma sanitize_result_ne_empty (v : LlmValue) (q : String) : sanitize_result v q ≠ "" := by
  cases v with
  | nonString => exact apology_message_ne_empty q
  | str s =>
    simp only [sanitize_result]
    split
    · exact apology_message_ne_empty q
    · next hc =>
      simp only [Bool.or_eq_true, beq_iff_eq, not_or] at hc
      exact fun he => hc.2 he

/-- Appending one URL to a history of at most 10 entries keeps at most 10. -/
lemma append_history_length_le (h : List String) (url : String)
    (hh : h.length ≤ 10) : (append_history h url).length ≤ 10 := by
  simp only [append_history]
  split
  · simp only [List.length_drop]
    omega
  · next hc =>
    simp only [not_lt, List.length_append, List.length_cons, List.length_nil] at hc ⊢
    omega

/-! ## C1 -/

/-- C1 is refuted as stated: the claim covers both direct-extraction
normalization paths of `process_query`, but on an entirely empty trace the
summarization-failure path (lines 239-250) yields the empty string, not the
generic statement that relevant information was found but could not be
formatted. -/
theorem empty_trace_normalization_counterexample :
    extract_after_summary_failure ⟨some []⟩ "latest news" = "" ∧
    ("" : String) ≠
      "I found information related to your query but had trouble formatting the results." :=
  ⟨rfl, by decide⟩

/-- C1 (amended): both normalization paths select the `extracted_content` of
the last action marked done and successful, and otherwise the chronologically
last action's content; on an entirely empty or unavailable trace, the
sync-invoke-failure path yields the generic could-not-format statement, while
the summarization-failure path yields the empty string for an empty trace and
a query-referencing generic statement for an unavailable one. -/
theorem result_normalization_policy (ca cb cc q : String) :
    extract_after_sync_failure
        ⟨some [⟨false, some false, ca⟩, ⟨true, some false, cb⟩, ⟨true, some true, cc⟩]⟩ = cc ∧
    extract_after_summary_failure
        ⟨some [⟨false, some false, ca⟩, ⟨true, some false, cb⟩, ⟨true, some true, cc⟩]⟩ q = cc ∧
    extract_after_sync_failure
        ⟨some [⟨false, some false, ca⟩, ⟨false, some false, cb⟩]⟩ = cb ∧
    extract_after_summary_failure
        ⟨some [⟨false, some false, ca⟩, ⟨false, some false, cb⟩]⟩ q = cb ∧
    extract_after_sync_failure ⟨some []⟩ =
      "I found information related to your query but had trouble formatting the results." ∧
    extract_after_sync_failure ⟨none⟩ =
      "I found information related to your query but had trouble formatting the results." ∧
    extract_after_summary_failure ⟨some []⟩ q = "" ∧
    extract_after_summary_failure ⟨none⟩ q =
      "Based on my web search, I found information related to your query about " ++ q :=
  ⟨rfl, rfl, rfl, rfl, rfl, rfl, rfl, rfl⟩

/-! ## C3 -/

/-- C3: starting from any history of at most 10 entries (in particular the
empty history a fresh controller carries), any sequence of history updates
leaves at most 10 entries; and appending an 11th URL to a full history of 10
evicts exactly the oldest entry, preserving the order of the remaining 10. -/
theorem history_capacity_invariant (urls : List String) (h0 : List String)
    (hlen : h0.length ≤ 10) :
    (urls.foldl append_history h0).length ≤ 10 ∧
    (∀ url, h0.length = 10 → append_history h0 url = h0.tail ++ [url]) := by
  constructor
  · induction urls generalizing h0 with
    | nil => simpa using hlen
    | cons u rest ih =>
      simpa using ih (append_history h0 u) (append_history_length_le h0 u hlen)
  · intro url h10
    simp only [append_history]
    rw [if_pos (by simp [h10]), List.length_append, h10]
    norm_num
    exact List.tail_append_singleton_of_ne_nil (by intro hnil; simp [hnil] at h10)

/-- Witness for C3 at concrete inputs. -/
theorem history_capacity_invariant_witness :
    ((["a", "b", "c"] : List String).foldl append_history []).length ≤ 10 ∧
    append_history ["1", "2", "3", "4", "5", "6", "7", "8", "9", "10"] "11" =
      ["1", "2", "3", "4", "5", "6", "7", "8", "9", "10"].tail ++ ["11"] :=
  ⟨(history_capacity_invariant ["a", "b", "c"] [] (by decide)).1,
   (history_capacity_invariant []
      ["1", "2", "3", "4", "5", "6", "7", "8", "9", "10"] (by decide)).2 "11" (by decide)⟩

/-! ## C4 -/

/-- C4: the sanitization step replaces a non-string value, an empty string,
or a string beginning with the provider's object-representation tag
`AgentHistoryList` by the fixed apology referencing the query; its output is
never empty, so the `aiResponse` of any `success`-status result of
`process_query` is a nonempty string. -/
theorem sanitize_output_policy (v : LlmValue) (q : String) :
    sanitize_result v q ≠ "" ∧
    ((v = .nonString ∨ v = .str "" ∨
        ∃ s, v = .str s ∧ py_starts_with s "AgentHistoryList" = true) →
      sanitize_result v q = apology_message q) ∧
    ∀ (c : BrowserController) (env : QueryEnv),
      (c.process_query env q).2.status = "success" →
      (c.process_query env q).2.aiResponse ≠ "" := by
  refine ⟨sanitize_result_ne_empty v q, ?_, ?_⟩
  · rintro (rfl | rfl | ⟨s, rfl, hs⟩)
    · rfl
    · simp [sanitize_result]
    · simp [sanitize_result, hs]
  · intro c env hstat
    cases ho : env.outer_failure with
    | some m => simp [BrowserController.process_query, ho] at hstat
    | none =>
      cases ha : env.agent_run with
      | error m => simp [BrowserController.process_query, ho, ha] at hstat
      | ok result =>
        simp only [BrowserController.process_query, ho, ha]
        cases hb : env.browser_url <;> exact sanitize_result_ne_empty _ _

/-- Witness for C4 at concrete inputs. -/
theorem sanitize_output_policy_witness :
    sanitize_result (.str "AgentHistoryList(all_results=[...])") "capital of France" =
      apology_message "capital of France" ∧
    sanitize_result (.str "") "weather" = apology_message "weather" ∧
    ((BrowserController.init "u").process_query
        ⟨none, Except.ok ⟨none⟩, .sync_failure, none⟩ "q3").2.aiResponse ≠ "" :=
  ⟨(sanitize_output_policy (.str "AgentHistoryList(all_results=[...])") "capital of France").2.1
      (Or.inr (Or.inr ⟨_, rfl, by decide⟩)),
   (sanitize_output_policy (.str "") "weather").2.1 (Or.inr (Or.inl rfl)),
   (sanitize_output_policy (.str "") "q3").2.2 (BrowserController.init "u")
      ⟨none, Except.ok ⟨none⟩, .sync_failure, none⟩ (by decide)⟩

/-! ## C10 -/

/-- C10: the two direct-extraction fallback paths are not extensionally
equal.  On a trace whose last done-marked action carries no explicit success
flag, the sync-invoke-failure path selects that action's content (missing
success defaults to true) while the summarization-failure path skips it
(missing success defaults to false) and falls back to the chronologically
last action; and on an empty action list the first path yields the generic
could-not-format statement while the second yields the empty string. -/
theorem fallback_extraction_paths_differ :
    extract_after_sync_failure
        ⟨some [⟨true, none, "alpha"⟩, ⟨false, some false, "beta"⟩]⟩ = "alpha" ∧
    extract_after_summary_failure
        ⟨some [⟨true, none, "alpha"⟩, ⟨false, some false, "beta"⟩]⟩ "q" = "beta" ∧
    extract_after_sync_failure
        ⟨some [⟨true, none, "alpha"⟩, ⟨false, some false, "beta"⟩]⟩ ≠
      extract_after_summary_failure
        ⟨some [⟨true, none, "alpha"⟩, ⟨false, some false, "beta"⟩]⟩ "q" ∧
    extract_after_sync_failure ⟨some []⟩ =
      "I found information related to your query but had trouble formatting the results." ∧
    extract_after_summary_failure ⟨some []⟩ "q" = "" :=
  ⟨rfl, rfl, by decide, rfl, rfl⟩

/-! ## C2 -/

/-- C2 is refuted as stated: after a successful `start_session` followed by
`stop_session`, the controller has `session_id` unset but `connection_url`
still set (`stop_session` clears `session_id`, `session`, `agent` and
`streaming` but never touches `connection_url`), so the two fields are
partially set. -/
theorem session_fields_desync_counterexample :
    (((BrowserController.init "u1").start_session
        ⟨Except.ok ⟨"sess-1", "wss://c/sess-1"⟩, [], fun i => ⟨i, i⟩, fun _ => "lv"⟩).1.stop_session).session_id
      = none ∧
    (((BrowserController.init "u1").start_session
        ⟨Except.ok ⟨"sess-1", "wss://c/sess-1"⟩, [], fun i => ⟨i, i⟩, fun _ => "lv"⟩).1.stop_session).connection_url
      = some "wss://c/sess-1" :=
  ⟨rfl, rfl⟩

/-- C2 (amended): `session_id` and `connection_url` are both unset after
construction and both set after a successful `start_session`; an unrecovered
creation failure leaves the state (hence both fields) unchanged; but
`stop_session` clears `session_id` while leaving `connection_url` at its
previous value, so after stopping a started session the fields are partially
set. -/
theorem session_identity_lifecycle (uid : String) (env : StartEnv)
    (s : SessionRec) (e : String) :
    ((BrowserController.init uid).session_id = none ∧
      (BrowserController.init uid).connection_url = none) ∧
    (env.create_result = .ok s →
      ((BrowserController.init uid).start_session env).1.session_id = some s.id ∧
      ((BrowserController.init uid).start_session env).1.connection_url = some s.connect_url) ∧
    (env.create_result = .error e → message_mentions_limit e = false →
      ((BrowserController.init uid).start_session env).1 = BrowserController.init uid) ∧
    (∀ c : BrowserController,
      c.stop_session.connection_url = c.connection_url ∧
      (c.session_id.isSome = true → c.stop_session.session_id = none)) := by
  refine ⟨⟨rfl, rfl⟩, ?_, ?_, ?_⟩
  · intro h
    simp [BrowserController.start_session, h]
  · intro h hnl
    simp [BrowserController.start_session, h, hnl]
  · intro c
    constructor
    · by_cases hs : c.session_id.isSome <;> simp [BrowserController.stop_session, hs]
    · intro hs
      simp [BrowserController.stop_session, hs]

/-- Witness for C2's amended theorem at concrete inputs. -/
theorem session_identity_lifecycle_witness :
    ((BrowserController.init "u").start_session
        ⟨Except.ok ⟨"sid", "wss://x"⟩, [], fun i => ⟨i, i⟩, fun i => i⟩).1.connection_url
      = some "wss://x" ∧
    (((BrowserController.init "u").start_session
        ⟨Except.ok ⟨"sid", "wss://x"⟩, [], fun i => ⟨i, i⟩, fun i => i⟩).1.stop_session).session_id
      = none :=
  ⟨((session_identity_lifecycle "u"
      ⟨Except.ok ⟨"sid", "wss://x"⟩, [], fun i => ⟨i, i⟩, fun i => i⟩
      ⟨"sid", "wss://x"⟩ "e").2.1 rfl).2,
   ((session_identity_lifecycle "u"
      ⟨Except.ok ⟨"sid", "wss://x"⟩, [], fun i => ⟨i, i⟩, fun i => i⟩
      ⟨"sid", "wss://x"⟩ "e").2.2.2
      ((BrowserController.init "u").start_session
        ⟨Except.ok ⟨"sid", "wss://x"⟩, [], fun i => ⟨i, i⟩, fun i => i⟩).1).2 rfl⟩

/-! ## C5 -/

/-- Looking up a key right after setting it yields the stored controller. -/
lemma lookup_set_session (t : SessionTable) (uid : String) (c : BrowserController) :
    lookup_session (set_session t uid c) uid = some c := by
  induction t with
  | nil => simp [set_session, lookup_session]
  | cons p rest ih =>
    obtain ⟨k, c0⟩ := p
    by_cases h : k = uid
    · simp [set_session, lookup_session, h]
    · simp [set_session, lookup_session, h, ih]

/-- C5: after a first `startSession` call for a fresh `user_id` succeeds,
every later call for the same `user_id` (with any provider environment, since
the provider is never contacted) leaves the session table unchanged and
returns the identifier recorded by the first call. -/
theorem start_browser_idempotent (t : SessionTable) (uid : String)
    (env env2 : StartEnv) (s : SessionRec)
    (h0 : lookup_session t uid = none) (h1 : env.create_result = .ok s) :
    (start_browser t uid env).2 =
      .ok "Browser session started" (some s.id) (some "https://www.google.com") ∧
    (∀ (t2 : SessionTable) (c : BrowserController), lookup_session t2 uid = some c →
      start_browser t2 uid env2 = (t2, .ok "Session already exists" c.session_id none)) ∧
    start_browser (start_browser t uid env).1 uid env2 =
      ((start_browser t uid env).1, .ok "Session already exists" (some s.id) none) := by
  have hrepeat : ∀ (t2 : SessionTable) (c : BrowserController),
      lookup_session t2 uid = some c →
      start_browser t2 uid env2 = (t2, .ok "Session already exists" c.session_id none) := by
    intro t2 c hc
    simp [start_browser, hc]
  have hl : lookup_session (start_browser t uid env).1 uid =
      some ((BrowserController.init uid).start_session env).1 := by
    simp [start_browser, h0, BrowserController.start_session, h1, lookup_set_session]
  refine ⟨?_, hrepeat, ?_⟩
  · simp [start_browser, h0, BrowserController.start_session, h1]
  · rw [hrepeat _ _ hl]
    simp [BrowserController.start_session, h1]

/-- Witness for C5 at concrete inputs: the second call returns the first
call's identifier and the unchanged table. -/
theorem start_browser_idempotent_witness :
    start_browser (start_browser [] "u7" ⟨Except.ok ⟨"sid1", "wss://a"⟩, [], fun i => ⟨i, i⟩, fun i => i⟩).1
        "u7" ⟨Except.error "down", [], fun i => ⟨i, i⟩, fun i => i⟩ =
      ((start_browser [] "u7" ⟨Except.ok ⟨"sid1", "wss://a"⟩, [], fun i => ⟨i, i⟩, fun i => i⟩).1,
        .ok "Session already exists" (some "sid1") none) :=
  (start_browser_idempotent [] "u7"
    ⟨Except.ok ⟨"sid1", "wss://a"⟩, [], fun i => ⟨i, i⟩, fun i => i⟩
    ⟨Except.error "down", [], fun i => ⟨i, i⟩, fun i => i⟩
    ⟨"sid1", "wss://a"⟩ rfl rfl).2.2

/-! ## C6 -/

/-- C6: when `sessions.create` fails with the provider's
concurrency-limit-exceeded message, `start_session` adopts the first session
returned by `sessions.list`, re-fetching its full record by identifier
through `sessions.retrieve` and recording the retrieved record's id and
`connect_url`; when the list is empty, the original failure propagates as the
error result and the state is unchanged. -/
theorem start_session_limit_fallback (c : BrowserController) (env : StartEnv)
    (e : String) (hc : env.create_result = .error e)
    (hl : message_mentions_limit e = true) :
    (∀ first rest, env.list_result = first :: rest →
      (c.start_session env).2 =
        .connected (env.retrieve first.id).id "https://www.google.com"
          (env.debug_url (env.retrieve first.id).id) ∧
      (c.start_session env).1.session_id = some (env.retrieve first.id).id ∧
      (c.start_session env).1.connection_url = some (env.retrieve first.id).connect_url) ∧
    (env.list_result = [] → c.start_session env = (c, .failed e)) := by
  constructor
  · intro first rest hlist
    refine ⟨?_, ?_, ?_⟩ <;> simp [BrowserController.start_session, hc, hl, hlist]
  · intro hlist
    simp [BrowserController.start_session, hc, hl, hlist]

/-- Witness for C6 at concrete inputs: the adopted session's connection URL
comes from the record re-fetched by id, not from the (stale) list entry, and
an empty list propagates the original failure. -/
theorem start_session_limit_fallback_witness :
    ((BrowserController.init "u").start_session
        ⟨Except.error limit_message, [⟨"remote-1", "stale"⟩],
          (fun i => ⟨i, "wss://fresh/" ++ i⟩), fun _ => "lv"⟩).1.connection_url
      = some ("wss://fresh/" ++ "remote-1") ∧
    (BrowserController.init "u").start_session
        ⟨Except.error limit_message, [], (fun i => ⟨i, "wss://fresh/" ++ i⟩), fun _ => "lv"⟩
      = (BrowserController.init "u", .failed limit_message) :=
  ⟨((start_session_limit_fallback (BrowserController.init "u")
      ⟨Except.error limit_message, [⟨"remote-1", "stale"⟩],
        (fun i => ⟨i, "wss://fresh/" ++ i⟩), fun _ => "lv"⟩
      limit_message rfl (by decide)).1 ⟨"remote-1", "stale"⟩ [] rfl).2.2,
   (start_session_limit_fallback (BrowserController.init "u")
      ⟨Except.error limit_message, [], (fun i => ⟨i, "wss://fresh/" ++ i⟩), fun _ => "lv"⟩
      limit_message rfl (by decide)).2 rfl⟩

/-! ## C7 -/

/-- C7: when the agent invocation fails, `process_query` does not fail the
request: the controller returns status `partial_success` with a nonempty
apology naming the error, the current URL and the narration log; the HTTP
endpoint relays that body, and the Session stays in the session table (with
its narration log extended) for subsequent queries. -/
theorem agent_failure_recovery (t : SessionTable) (uid q m : String)
    (c : BrowserController) (env : QueryEnv)
    (hu : lookup_session t uid = some c)
    (ho : env.outer_failure = none) (ha : env.agent_run = .error m) :
    (c.process_query env q).2.status = "partial_success" ∧
    (c.process_query env q).2.aiResponse =
      "I encountered an issue while trying to browse the web: " ++ m
        ++ ". I\x27m unable to access web content for this query right now." ∧
    (c.process_query env q).2.aiResponse ≠ "" ∧
    (c.process_query env q).2.current_url = some c.current_url ∧
    (c.process_query env q).2.steps =
      c.steps ++ ["Processing query: " ++ q, "Browser agent initialized",
        "Executing query...", "Browser error: " ++ m] ∧
    (process_query t uid q env).2 =
      .ok ((c.process_query env q).2.aiResponse) c.current_url
        ((c.process_query env q).2.steps) ∧
    lookup_session (process_query t uid q env).1 uid = some ((c.process_query env q).1) := by
  have hne : (("I encountered an issue while trying to browse the web: " : String) ++ m
      ++ ". I\x27m unable to access web content for this query right now.") ≠ "" := by
    rw [String.append_assoc]
    exact append_ne_empty_of_left _ _ (by decide)
  refine ⟨?_, ?_, ?_, ?_, ?_, ?_, ?_⟩
  · simp [BrowserController.process_query, ho, ha]
  · simp [BrowserController.process_query, ho, ha]
  · simpa [BrowserController.process_query, ho, ha] using hne
  · simp [BrowserController.process_query, ho, ha]
  · simp [BrowserController.process_query, ho, ha]
  · simp [process_query, hu, BrowserController.process_query, ho, ha]
  · simp [process_query, hu, BrowserController.process_query, ho, ha, lookup_set_session]

/-- Witness for C7 at concrete inputs. -/
theorem agent_failure_recovery_witness :
    ((BrowserController.init "u").process_query
        ⟨none, Except.error "CDP connection refused", .sync_failure, none⟩
        "find cats").2.status = "partial_success" ∧
    lookup_session
      (process_query [("u", BrowserController.init "u")] "u" "find cats"
        ⟨none, Except.error "CDP connection refused", .sync_failure, none⟩).1 "u" =
      some (((BrowserController.init "u").process_query
        ⟨none, Except.error "CDP connection refused", .sync_failure, none⟩
        "find cats").1) :=
  ⟨(agent_failure_recovery [("u", BrowserController.init "u")] "u" "find cats"
      "CDP connection refused" (BrowserController.init "u")
      ⟨none, Except.error "CDP connection refused", .sync_failure, none⟩
      rfl rfl rfl).1,
   (agent_failure_recovery [("u", BrowserController.init "u")] "u" "find cats"
      "CDP connection refused" (BrowserController.init "u")
      ⟨none, Except.error "CDP connection refused", .sync_failure, none⟩
      rfl rfl rfl).2.2.2.2.2.2⟩

/-! ## C8 -/

/-- C8 is refuted as stated: on an unexpected failure the controller's error
dict does carry the narration log, but the HTTP endpoint re-raises it as an
`HTTPException` carrying only the error text, so the caller's response
contains no steps even though the controller produced a nonempty narration
log. -/
theorem unexpected_error_drops_steps_counterexample :
    (process_query [("u", BrowserController.init "u")] "u" "find cats"
        ⟨some "boom", Except.error "x", .sync_failure, none⟩).2 =
      .httpError 500 "boom" ∧
    QueryHttp.steps_of
      (process_query [("u", BrowserController.init "u")] "u" "find cats"
        ⟨some "boom", Except.error "x", .sync_failure, none⟩).2 = none ∧
    ((BrowserController.init "u").process_query
        ⟨some "boom", Except.error "x", .sync_failure, none⟩ "find cats").2.steps ≠ [] := by
  refine ⟨by decide, by decide, by decide⟩

/-- C8 (amended): on an unexpected failure (one outside the agent and
summarization handlers) the controller's result has status `error` and
carries the narration log in its `steps` field, but the HTTP endpoint
surfaces it as a 500 error carrying only the error text — the caller's
response does not include the narration log. -/
theorem unexpected_error_handling (t : SessionTable) (uid q m : String)
    (c : BrowserController) (env : QueryEnv)
    (hu : lookup_session t uid = some c) (ho : env.outer_failure = some m) :
    (c.process_query env q).2.status = "error" ∧
    (c.process_query env q).2.error = some m ∧
    (c.process_query env q).2.aiResponse =
      "I encountered an error while processing your request: " ++ m ∧
    (c.process_query env q).2.steps =
      c.steps ++ ["Processing query: " ++ q, "Error: " ++ m] ∧
    (process_query t uid q env).2 = .httpError 500 m ∧
    QueryHttp.steps_of (process_query t uid q env).2 = none := by
  refine ⟨?_, ?_, ?_, ?_, ?_, ?_⟩
  · simp [BrowserController.process_query, ho]
  · simp [BrowserController.process_query, ho]
  · simp [BrowserController.process_query, ho]
  · simp [BrowserController.process_query, ho]
  · simp [process_query, hu, BrowserController.process_query, ho]
  · simp [process_query, hu, BrowserController.process_query, ho, QueryHttp.steps_of]

/-- Witness for C8's amended theorem at concrete inputs. -/
theorem unexpected_error_handling_witness :
    ((BrowserController.init "u").process_query
        ⟨some "KeyError", Except.error "x", .sync_failure, none⟩ "news").2.steps =
      (BrowserController.init "u").steps ++ ["Processing query: news", "Error: KeyError"] ∧
    (process_query [("u", BrowserController.init "u")] "u" "news"
        ⟨some "KeyError", Except.error "x", .sync_failure, none⟩).2 =
      .httpError 500 "KeyError" :=
  ⟨(unexpected_error_handling [("u", BrowserController.init "u")] "u" "news"
      "KeyError" (BrowserController.init "u")
      ⟨some "KeyError", Except.error "x", .sync_failure, none⟩ rfl rfl).2.2.2.1,
   (unexpected_error_handling [("u", BrowserController.init "u")] "u" "news"
      "KeyError" (BrowserController.init "u")
      ⟨some "KeyError", Except.error "x", .sync_failure, none⟩ rfl rfl).2.2.2.2.1⟩

/-! ## C9 -/

/-- Steps-message count distributes over concatenation of pushed messages. -/
lemma count_steps_msgs_append (a b : List StreamMsg) :
    count_steps_msgs (a ++ b) = count_steps_msgs a + count_steps_msgs b := by
  simp [count_steps_msgs]

/-- A tick pushes exactly one steps message when the log grew, none
otherwise. -/
lemma count_steps_msgs_tick (snap : StreamSnapshot) (lc : Nat) :
    count_steps_msgs (stream_tick snap lc).1 =
      if snap.steps.length > lc then 1 else 0 := by
  rcases hd : snap.debug_links with _ | dl <;>
    by_cases hgt : snap.steps.length > lc <;>
      simp [stream_tick, hd, hgt, count_steps_msgs]

/-- The counter after a tick: advanced to the log length when it grew,
unchanged otherwise. -/
lemma stream_tick_snd (snap : StreamSnapshot) (lc : Nat) :
    (stream_tick snap lc).2 =
      if snap.steps.length > lc then snap.steps.length else lc := rfl

/-- C9: the attach push sends the narration log once and records its length;
every tick pushes the current URL, and the live-view URL whenever it is
known; and the narration log is pushed only on ticks where its length grew
since the last push — over a 5-tick run whose log grows only at tick 3,
exactly one steps message is sent beyond the initial attach push. -/
theorem stream_delta_detection (d cu : Option String)
    (s1 s2 s3 s4 s5 : List String) (n0 : Nat)
    (h1 : s1.length = n0) (h2 : s2.length = n0) (h3 : s3.length > n0)
    (h4 : s4.length = s3.length) (h5 : s5.length = s3.length) :
    count_steps_msgs (stream_run
      [⟨d, cu, s1⟩, ⟨d, cu, s2⟩, ⟨d, cu, s3⟩, ⟨d, cu, s4⟩, ⟨d, cu, s5⟩] n0).1 = 1 ∧
    (∀ c : BrowserController,
      count_steps_msgs (stream_attach c).1 = 1 ∧ (stream_attach c).2 = c.steps.length) ∧
    (∀ snap lc, StreamMsg.url (snap.current_url.getD "about:blank") ∈ (stream_tick snap lc).1) ∧
    (∀ snap lc u, snap.debug_links = some u →
      StreamMsg.live_view_url u ∈ (stream_tick snap lc).1) := by
  refine ⟨?_, ?_, ?_, ?_⟩
  · simp only [stream_run, count_steps_msgs_append, count_steps_msgs_tick, stream_tick_snd]
    simp only [h1, h2, h4, h5]
    simp [h3, Nat.lt_irrefl, count_steps_msgs]
  · intro c
    simp [stream_attach, count_steps_msgs]
  · intro snap lc
    rcases hd : snap.debug_links with _ | dl <;> simp [stream_tick, hd]
  · intro snap lc u hu
    simp [stream_tick, hu]

/-- Witness for C9 at concrete inputs. -/
theorem stream_delta_detection_witness :
    count_steps_msgs (stream_run
      [⟨some "lv", some "https://x", ["a"]⟩, ⟨some "lv", some "https://x", ["a"]⟩,
       ⟨some "lv", some "https://x", ["a", "b"]⟩, ⟨some "lv", some "https://x", ["a", "b"]⟩,
       ⟨some "lv", some "https://x", ["a", "b"]⟩] 1).1 = 1 :=
  (stream_delta_detection (some "lv") (some "https://x")
    ["a"] ["a"] ["a", "b"] ["a", "b"] ["a", "b"] 1 rfl rfl (by decide) rfl rfl).1

end QuerySage
